import Mathlib

/-!
Verification development for the record-validation engine in
core/spark/record_validation.py (class ValidationScenarioSpark).

The Python source is shallowly embedded:
  - dynamically typed Python values that flow through the check loop are
    modelled by the inductive type PyVal, with Python rich equality
    (where booleans compare equal to the integers 0 and 1) modelled by pyEq;
  - a user check function is modelled by PyvsFunc: its name, the default of
    its test_message parameter (none when the parameter is absent), and its
    behavior on a record (returning a value or raising an exception);
  - raising Python code is modelled with Except String;
  - Spark RDD map / mapPartitions pipelines are modelled as list recursions,
    with a task exception propagating as an Except error (a failed task
    fails the job when the driver forces the RDD).
-/

/-- A record from records_df: an integer id and a textual document payload. -/
structure Record where
  id : Int
  document : String
deriving DecidableEq

/-- Python values relevant to the check loop: booleans, integers and strings.
Check functions may return any of these; messages are strings. -/
inductive PyVal where
  | VBool : Bool → PyVal
  | VInt : Int → PyVal
  | VStr : String → PyVal
deriving DecidableEq

/-- Python rich equality (the == / != used by the source at lines 208 and 214):
bool is a subclass of int in Python, so True == 1 and False == 0; strings
never compare equal to booleans or integers. -/
def pyEq : PyVal → PyVal → Bool
  | PyVal.VBool a, PyVal.VBool b => a == b
  | PyVal.VInt m, PyVal.VInt n => m == n
  | PyVal.VBool a, PyVal.VInt n => (if a then (1 : Int) else 0) == n
  | PyVal.VInt n, PyVal.VBool a => n == (if a then (1 : Int) else 0)
  | PyVal.VStr s, PyVal.VStr t => s == t
  | _, _ => false

/-- Outcome of calling a user check function on a record: a returned value,
or a raised exception carrying str(e). -/
inductive CheckOutcome where
  | ret : PyVal → CheckOutcome
  | exc : String → CheckOutcome

/-- A function value inside the loaded module (before discovery gives it
its attribute name). testMessage is the default of the named parameter
test_message, or none when the function does not declare that parameter. -/
structure PyFunc where
  testMessage : Option PyVal
  run : Record → CheckOutcome

/-- A module attribute: a function or any other kind of attribute
(isfunction is false for the latter). -/
inductive PyAttr where
  | func : PyFunc → PyAttr
  | other : PyAttr

/-- An eligible check function as collected into pyvs_funcs (source lines
242-248): its attribute name together with the function data. -/
structure PyvsFunc where
  name : String
  testMessage : Option PyVal
  run : Record → CheckOutcome

/-- The single-quote character, used in the synthetic failure message format
of source line 224. -/
def squote : String := String.singleton (Char.ofNat 39)

/-- The synthetic failure message of source line 224: the percent-format
template, with the check name between single quotes, applied to the function
name and the exception text. -/
def excMsg (func_name e : String) : String :=
  "test " ++ squote ++ func_name ++ squote ++ " had exception: " ++ e

/-- str of the KeyError raised by source line 199 when a check function does
not declare a test_message parameter. -/
def keyErrStr : String := "KeyError: " ++ squote ++ "test_message" ++ squote

/-- Modelled from the spec: PythonUDFRecord (defined in core/spark/utils.py,
which is not part of the source tree) is, per spec section 4.1, "a wrapper
exposing the record and its parsed document and convenience accessors"; it is
modelled as the record itself, with all check behavior abstracted into
PyvsFunc.run. -/
def PythonUDFRecord (row : Record) : Record := row

/-- The results_dict aggregated per record (source lines 186-189):
a running fail_count and the ordered failed list. -/
structure ResultsDict where
  fail_count : Nat
  failed : List PyVal
deriving DecidableEq

/-- The pyspark Row returned for a failed record (source lines 230-236 and
152-158). json.dumps of results_dict is modelled as the dict itself. -/
structure Row where
  record_id : Int
  validation_scenario_id : Int
  valid : Nat
  results_payload : ResultsDict
  fail_count : Nat
deriving DecidableEq

/-- One iteration of the check loop of validate_python_udf (source lines
192-224): extract the test_message default (line 199, OUTSIDE the try, so a
missing parameter raises), then run the check inside the try, appending a
failure on a non-True return or a synthetic failure on an exception. -/
def runCheck (prvb : Record) (rd : ResultsDict) (func : PyvsFunc) : Except String ResultsDict :=
  match func.testMessage with
  | none => Except.error keyErrStr
  | some t_msg =>
    match func.run prvb with
    | CheckOutcome.ret test_result =>
      if !(pyEq test_result (PyVal.VBool true)) then
        if !(pyEq test_result (PyVal.VBool false)) then
          Except.ok ⟨rd.fail_count + 1, rd.failed ++ [test_result]⟩
        else
          Except.ok ⟨rd.fail_count + 1, rd.failed ++ [t_msg]⟩
      else
        Except.ok rd
    | CheckOutcome.exc e =>
      Except.ok ⟨rd.fail_count + 1, rd.failed ++ [PyVal.VStr (excMsg func.name e)]⟩

/-- The for-loop of validate_python_udf over pyvs_funcs (source line 192),
threading results_dict; an uncaught exception (the KeyError of line 199)
aborts the whole loop. -/
def python_check_loop (prvb : Record) : ResultsDict → List PyvsFunc → Except String ResultsDict
  | rd, [] => Except.ok rd
  | rd, func :: funcs =>
    match runCheck prvb rd func with
    | Except.error e => Except.error e
    | Except.ok rd2 => python_check_loop prvb rd2 funcs

/-- validate_python_udf (source lines 171-236): wrap the row, loop through the
check functions, and return a Row when fail_count is positive, None otherwise. -/
def validate_python_udf (vs_id : Int) (pyvs_funcs : List PyvsFunc) (row : Record) :
    Except String (Option Row) :=
  match python_check_loop (PythonUDFRecord row) ⟨0, []⟩ pyvs_funcs with
  | Except.error e => Except.error e
  | Except.ok rd =>
    if rd.fail_count > 0 then
      Except.ok (some ⟨row.id, vs_id, 0, rd, rd.fail_count⟩)
    else
      Except.ok none

/-- getattr on the loaded module (source line 246); the attribute list models
the module __dict__ after exec, whose keys are unique. -/
def getattr (attrs : List (String × PyAttr)) (name : String) : Option PyAttr :=
  (attrs.find? (fun p => p.1 == name)).map Prod.snd

/-- Python string comparison (used by the sorted dir listing): lexicographic
over character code points. -/
def pyLe : List Char → List Char → Bool
  | [], _ => true
  | _ :: _, [] => false
  | a :: as, b :: bs =>
    if a.toNat < b.toNat then true
    else if b.toNat < a.toNat then false
    else pyLe as bs

/-- Python string less-or-equal on strings. -/
def pyStrLe (a b : String) : Bool := pyLe a.data b.data

/-- Python str.lower, per character (ASCII case mapping). -/
def pyLower (s : String) : String := ⟨s.data.map Char.toLower⟩

/-- Python str.startswith on the character lists. -/
def pyStartswith (s p : String) : Bool := p.data.isPrefixOf s.data

/-- dir(temp_pyvs) (source line 244): the sorted list of the unique attribute
names of the module. -/
def dirList (attrs : List (String × PyAttr)) : List String :=
  List.insertionSort (fun a b => pyStrLe a b = true) ((attrs.map Prod.fst).dedup)

/-- test_labeled_attrs (source line 244): the dir listing filtered to names
that lowercase to something starting with "test". -/
def test_labeled_attrs (attrs : List (String × PyAttr)) : List String :=
  (dirList attrs).filter (fun a => pyStartswith (pyLower a) ("test"))

/-- pyvs_funcs (source lines 243-248): for each test-labeled attribute name,
keep it when getattr yields a function. -/
def pyvs_funcs (attrs : List (String × PyAttr)) : List PyvsFunc :=
  (test_labeled_attrs attrs).filterMap (fun name =>
    match getattr attrs name with
    | some (PyAttr.func f) => some ⟨name, f.testMessage, f.run⟩
    | _ => none)

/-- The python-path record pipeline (source lines 250-252):
rdd.map(validate_python_udf).filter(row is not None), forced by the driver;
a task exception fails the whole job. -/
def python_map_records (vs_id : Int) (funcs : List PyvsFunc) :
    List Record → Except String (List Row)
  | [] => Except.ok []
  | row :: rest =>
    match validate_python_udf vs_id funcs row with
    | Except.error e => Except.error e
    | Except.ok res =>
      match python_map_records vs_id funcs rest with
      | Except.error e => Except.error e
      | Except.ok rows => Except.ok (res.toList ++ rows)

/-- _python_validation (source lines 167-255) after the module has been
loaded: discover the check functions and run the record pipeline. -/
def _python_validation (vs_id : Int) (attrs : List (String × PyAttr))
    (records : List Record) : Except String (List Row) :=
  python_map_records vs_id (pyvs_funcs attrs) records

/-- validate_schematron_pt_udf (source lines 117-158) on one partition.
The compiled schematron validator is abstracted as a function from a parsed
document to (is_valid, failed assert texts); etree.fromstring is abstracted
as parse, whose failure on a row (source line 126) is NOT caught and so
aborts the partition. -/
def validate_schematron_pt_udf {Xml : Type} (vs_id : Int)
    (parse : String → Except String Xml) (validator : Xml → Bool × List String) :
    List Record → Except String (List Row)
  | [] => Except.ok []
  | row :: pt =>
    match parse row.document with
    | Except.error e => Except.error e
    | Except.ok record_xml =>
      match validate_schematron_pt_udf vs_id parse validator pt with
      | Except.error e => Except.error e
      | Except.ok tail =>
        if (validator record_xml).1 then
          Except.ok tail
        else
          Except.ok (⟨row.id, vs_id, 0,
            ⟨(validator record_xml).2.length, (validator record_xml).2.map PyVal.VStr⟩,
            (validator record_xml).2.length⟩ :: tail)

/-- _sch_validation (source lines 113-164): records_df.rdd.mapPartitions of
the schematron partition udf, forced by the driver. -/
def _sch_validation {Xml : Type} (vs_id : Int) (parse : String → Except String Xml)
    (validator : Xml → Bool × List String) (records : List Record) :
    Except String (List Row) :=
  validate_schematron_pt_udf vs_id parse validator records

/-- Physical partitioned execution of the schematron path: each partition is
processed by validate_schematron_pt_udf and the per-partition outputs are
unioned. -/
def validate_partitions_sch {Xml : Type} (vs_id : Int)
    (parse : String → Except String Xml) (validator : Xml → Bool × List String) :
    List (List Record) → Except String (List Row)
  | [] => Except.ok []
  | part :: parts =>
    match validate_schematron_pt_udf vs_id parse validator part with
    | Except.error e => Except.error e
    | Except.ok rows =>
      match validate_partitions_sch vs_id parse validator parts with
      | Except.error e => Except.error e
      | Except.ok rest => Except.ok (rows ++ rest)

/-- Physical partitioned execution of the python path: the per-record map is
applied partition by partition and the outputs are unioned. -/
def validate_partitions_python (vs_id : Int) (funcs : List PyvsFunc) :
    List (List Record) → Except String (List Row)
  | [] => Except.ok []
  | part :: parts =>
    match python_map_records vs_id funcs part with
    | Except.error e => Except.error e
    | Except.ok rows =>
      match validate_partitions_python vs_id funcs parts with
      | Except.error e => Except.error e
      | Except.ok rest => Except.ok (rows ++ rest)

/-- A validation scenario payload as the orchestrator sees it: either a
schematron scenario (abstract parse and compiled validator) or a python
scenario whose exec of the payload (source line 240) either loaded a module
or raised. -/
inductive VSPayload (Xml : Type) where
  | sch : (String → Except String Xml) → (Xml → Bool × List String) → VSPayload Xml
  | python : Except String (List (String × PyAttr)) → VSPayload Xml

/-- A ValidationScenario row as used by the orchestrator loop. -/
structure VScenario (Xml : Type) where
  id : Int
  payload : VSPayload Xml

/-- One batch write to core_recordvalidation (source lines 105-110). -/
structure WriteEvent where
  vs_id : Int
  rows : List Row
deriving DecidableEq

/-- The failure text of ValidationScenario.objects.get(pk=vs_id) raising
DoesNotExist (source line 92). -/
def doesNotExistMsg (vs_id : Int) : String :=
  "ValidationScenario matching query does not exist: " ++ toString vs_id

/-- Dispatch of one scenario (source lines 96-102): the type-specific
validation producing the failure rows; for a python scenario the exec
failure propagates. -/
def scenarioFails {Xml : Type} (records : List Record) (vs : VScenario Xml) :
    Except String (List Row) :=
  match vs.payload with
  | VSPayload.sch parse validator => _sch_validation vs.id parse validator records
  | VSPayload.python loaded =>
    match loaded with
    | Except.error e => Except.error e
    | Except.ok attrs => _python_validation vs.id attrs records

/-- run_record_validation_scenarios (source lines 67-110): loop over the
requested scenario ids in order; fetch the scenario (a failed lookup raises
DoesNotExist), run the type-specific validation, and write a batch if and
only if the failure rdd is non-empty. The loop body has no exception
handling, so any raise propagates and abandons the remaining ids. -/
def run_record_validation_scenarios {Xml : Type}
    (lookup : Int → Option (VScenario Xml)) (records : List Record) :
    List Int → Except String (List WriteEvent)
  | [] => Except.ok []
  | vs_id :: rest =>
    match lookup vs_id with
    | none => Except.error (doesNotExistMsg vs_id)
    | some vs =>
      match scenarioFails records vs with
      | Except.error e => Except.error e
      | Except.ok fails =>
        match run_record_validation_scenarios lookup records rest with
        | Except.error e => Except.error e
        | Except.ok events =>
          if fails.isEmpty then Except.ok events
          else Except.ok (⟨vs.id, fails⟩ :: events)

/-- Whether a check fails for a record: it raises, or returns a value not
Python-equal to True. -/
def checkFails (row : Record) (f : PyvsFunc) : Bool :=
  match f.run row with
  | CheckOutcome.exc _ => true
  | CheckOutcome.ret v => !(pyEq v (PyVal.VBool true))

/-- The failure entry a failing check contributes: the synthetic exception
message when it raises, its return value verbatim unless that value is
Python-equal to False, in which case the declared default message. -/
def checkFailMsg (row : Record) (f : PyvsFunc) : PyVal :=
  match f.run row with
  | CheckOutcome.exc e => PyVal.VStr (excMsg f.name e)
  | CheckOutcome.ret v =>
    if pyEq v (PyVal.VBool false) then f.testMessage.getD (PyVal.VStr ("")) else v

/-- The ordered failure entries a record accumulates over a function list. -/
def failMsgs (funcs : List PyvsFunc) (row : Record) : List PyVal :=
  (funcs.filter (checkFails row)).map (checkFailMsg row)

/-! ### Characterization of the python check loop -/

theorem runCheck_spec (prvb : Record) (rd : ResultsDict) (func : PyvsFunc)
    (t : PyVal) (ht : func.testMessage = some t) :
    runCheck prvb rd func =
      Except.ok (if checkFails prvb func then
        ⟨rd.fail_count + 1, rd.failed ++ [checkFailMsg prvb func]⟩ else rd) := by
  unfold runCheck checkFails checkFailMsg
  rw [ht]
  cases hr : func.run prvb with
  | exc e => simp
  | ret v =>
    by_cases h1 : pyEq v (PyVal.VBool true) = true
    · simp [h1]
    · by_cases h2 : pyEq v (PyVal.VBool false) = true
      · simp [h1, h2, ht]
      · simp [h1, h2]

theorem python_check_loop_spec (prvb : Record) (funcs : List PyvsFunc)
    (rd : ResultsDict) (h : ∀ f ∈ funcs, (f.testMessage).isSome = true) :
    python_check_loop prvb rd funcs =
      Except.ok ⟨rd.fail_count + (funcs.filter (checkFails prvb)).length,
                 rd.failed ++ (funcs.filter (checkFails prvb)).map (checkFailMsg prvb)⟩ := by
  induction funcs generalizing rd with
  | nil => simp [python_check_loop]
  | cons f fs ih =>
    have hf : (f.testMessage).isSome = true := h f (by simp)
    obtain ⟨t, ht⟩ := Option.isSome_iff_exists.mp hf
    have hrest : ∀ g ∈ fs, (g.testMessage).isSome = true := by
      intro g hg; exact h g (by simp [hg])
    unfold python_check_loop
    rw [runCheck_spec prvb rd f t ht]
    by_cases hcf : checkFails prvb f = true
    · simp only [hcf, if_pos]
      rw [ih _ hrest]
      simp [List.filter_cons, hcf, Nat.add_assoc, Nat.add_comm 1]
    · rw [if_neg hcf]
      show python_check_loop prvb rd fs = _
      rw [ih _ hrest]
      simp [List.filter_cons, hcf]

theorem python_check_loop_append (prvb : Record) (rd : ResultsDict)
    (p q : List PyvsFunc) :
    python_check_loop prvb rd (p ++ q) =
      match python_check_loop prvb rd p with
      | Except.error e => Except.error e
      | Except.ok rd2 => python_check_loop prvb rd2 q := by
  induction p generalizing rd with
  | nil => simp [python_check_loop]
  | cons f fs ih =>
    have hl : ∀ (l : List PyvsFunc), python_check_loop prvb rd (f :: l) =
        match runCheck prvb rd f with
        | Except.error e => Except.error e
        | Except.ok rd2 => python_check_loop prvb rd2 l := fun l => rfl
    rw [List.cons_append, hl, hl]
    cases runCheck prvb rd f with
    | error e => rfl
    | ok rd2 => exact ih rd2

theorem validate_python_udf_spec (vs_id : Int) (funcs : List PyvsFunc)
    (row : Record) (h : ∀ f ∈ funcs, (f.testMessage).isSome = true) :
    validate_python_udf vs_id funcs row =
      Except.ok (if (failMsgs funcs row).length > 0 then
        some ⟨row.id, vs_id, 0, ⟨(failMsgs funcs row).length, failMsgs funcs row⟩,
              (failMsgs funcs row).length⟩
      else none) := by
  unfold validate_python_udf failMsgs PythonUDFRecord
  rw [python_check_loop_spec row funcs ⟨0, []⟩ h]
  simp only [Nat.zero_add, List.nil_append, List.length_map]
  split <;> rfl

/-! ### Decomposition of failMsgs and empty-scenario behavior -/

theorem failMsgs_append (p q : List PyvsFunc) (row : Record) :
    failMsgs (p ++ q) row = failMsgs p row ++ failMsgs q row := by
  unfold failMsgs
  rw [List.filter_append, List.map_append]

theorem failMsgs_cons_fail (f : PyvsFunc) (fs : List PyvsFunc) (row : Record)
    (h : checkFails row f = true) :
    failMsgs (f :: fs) row = checkFailMsg row f :: failMsgs fs row := by
  unfold failMsgs
  rw [List.filter_cons, if_pos h, List.map_cons]

theorem failMsgs_cons_pass (f : PyvsFunc) (fs : List PyvsFunc) (row : Record)
    (h : checkFails row f = false) :
    failMsgs (f :: fs) row = failMsgs fs row := by
  unfold failMsgs
  rw [List.filter_cons]
  simp [h]

theorem validate_python_udf_no_funcs (vs_id : Int) (row : Record) :
    validate_python_udf vs_id [] row = Except.ok none := rfl

theorem python_map_records_no_funcs (vs_id : Int) (records : List Record) :
    python_map_records vs_id [] records = Except.ok [] := by
  induction records with
  | nil => rfl
  | cons row rest ih =>
    unfold python_map_records
    rw [validate_python_udf_no_funcs, ih]
    rfl

/-! ### Discovery: sorted order and eligibility -/

theorem names_of_filterMap_sublist (g : String → Option PyvsFunc)
    (hg : ∀ n f, g n = some f → f.name = n) (l : List String) :
    List.Sublist ((l.filterMap g).map PyvsFunc.name) l := by
  induction l with
  | nil => simp
  | cons n l ih =>
    cases hgn : g n with
    | none =>
      rw [List.filterMap_cons, hgn]
      exact List.Sublist.cons n ih
    | some f =>
      rw [List.filterMap_cons, hgn, List.map_cons, hg n f hgn]
      exact List.Sublist.cons₂ n ih

theorem pyvs_funcs_names_sublist (attrs : List (String × PyAttr)) :
    List.Sublist ((pyvs_funcs attrs).map PyvsFunc.name) (test_labeled_attrs attrs) := by
  unfold pyvs_funcs
  apply names_of_filterMap_sublist
  intro n f h
  cases hga : getattr attrs n with
  | none => rw [hga] at h; exact absurd h (by simp)
  | some a =>
    cases a with
    | other => rw [hga] at h; exact absurd h (by simp)
    | func pf =>
      rw [hga] at h
      cases h
      rfl

theorem pyLe_total (as bs : List Char) : pyLe as bs = true ∨ pyLe bs as = true := by
  induction as generalizing bs with
  | nil => left; rfl
  | cons a as ih =>
    cases bs with
    | nil => right; rfl
    | cons b bs =>
      by_cases h1 : a.toNat < b.toNat
      · left; simp [pyLe, h1]
      · by_cases h2 : b.toNat < a.toNat
        · right; simp [pyLe, h2]
        · rcases ih bs with h | h
          · left; simp [pyLe, h1, h2, h]
          · right; simp [pyLe, h1, h2, h]

theorem pyLe_trans (as : List Char) : ∀ bs cs : List Char,
    pyLe as bs = true → pyLe bs cs = true → pyLe as cs = true := by
  induction as with
  | nil => intro bs cs _ _; rfl
  | cons a as ih =>
    intro bs cs h1 h2
    cases bs with
    | nil => exact absurd h1 (by simp [pyLe])
    | cons b bs =>
      cases cs with
      | nil => exact absurd h2 (by simp [pyLe])
      | cons c cs =>
        simp only [pyLe] at h1 h2 ⊢
        by_cases hab : a.toNat < b.toNat
        · by_cases hbc : b.toNat < c.toNat
          · simp [Nat.lt_trans hab hbc]
          · by_cases hcb : c.toNat < b.toNat
            · simp [hbc, hcb] at h2
            · have hac : a.toNat < c.toNat := by omega
              simp [hac]
        · by_cases hba : b.toNat < a.toNat
          · simp [hab, hba] at h1
          · simp only [if_neg hab, if_neg hba] at h1
            by_cases hbc : b.toNat < c.toNat
            · have hac : a.toNat < c.toNat := by omega
              simp [hac]
            · by_cases hcb : c.toNat < b.toNat
              · simp [hbc, hcb] at h2
              · simp only [if_neg hbc, if_neg hcb] at h2
                have hac : ¬ a.toNat < c.toNat := by omega
                have hca : ¬ c.toNat < a.toNat := by omega
                simp [hac, hca, ih bs cs h1 h2]

instance : IsTotal String (fun a b => pyStrLe a b = true) :=
  ⟨fun a b => pyLe_total a.data b.data⟩

instance : IsTrans String (fun a b => pyStrLe a b = true) :=
  ⟨fun a b c => pyLe_trans a.data b.data c.data⟩

theorem dirList_sorted (attrs : List (String × PyAttr)) :
    List.Sorted (fun a b => pyStrLe a b = true) (dirList attrs) :=
  List.sorted_insertionSort (fun a b => pyStrLe a b = true) ((attrs.map Prod.fst).dedup)

theorem pyvs_funcs_names_sorted (attrs : List (String × PyAttr)) :
    List.Sorted (fun a b => pyStrLe a b = true) ((pyvs_funcs attrs).map PyvsFunc.name) := by
  have h1 := dirList_sorted attrs
  have h2 : List.Sublist (test_labeled_attrs attrs) (dirList attrs) :=
    List.filter_sublist (dirList attrs)
  exact List.Pairwise.sublist ((pyvs_funcs_names_sublist attrs).trans h2) h1

theorem mem_dirList (attrs : List (String × PyAttr)) (n : String) :
    n ∈ dirList attrs ↔ n ∈ attrs.map Prod.fst := by
  unfold dirList
  rw [(List.perm_insertionSort (fun a b => pyStrLe a b = true) ((attrs.map Prod.fst).dedup)).mem_iff]
  exact List.mem_dedup

theorem pyvs_funcs_empty_of_no_eligible (attrs : List (String × PyAttr))
    (h : ∀ p ∈ attrs, pyStartswith (pyLower p.1) ("test") = false) :
    pyvs_funcs attrs = [] := by
  have hlab : test_labeled_attrs attrs = [] := by
    unfold test_labeled_attrs
    rw [List.filter_eq_nil_iff]
    intro n hn
    rw [mem_dirList] at hn
    obtain ⟨p, hp, hpn⟩ := List.mem_map.mp hn
    rw [← hpn]
    simp [h p hp]
  unfold pyvs_funcs
  rw [hlab]
  rfl

/-! ### Split invariance of the two validation pipelines -/

theorem validate_schematron_pt_udf_append {Xml : Type} (vs_id : Int)
    (parse : String → Except String Xml) (validator : Xml → Bool × List String)
    (p q : List Record) :
    validate_schematron_pt_udf vs_id parse validator (p ++ q) =
      match validate_schematron_pt_udf vs_id parse validator p with
      | Except.error e => Except.error e
      | Except.ok rows =>
        match validate_schematron_pt_udf vs_id parse validator q with
        | Except.error e => Except.error e
        | Except.ok rest => Except.ok (rows ++ rest) := by
  induction p with
  | nil =>
    show validate_schematron_pt_udf vs_id parse validator q = _
    cases validate_schematron_pt_udf vs_id parse validator q with
    | error e => rfl
    | ok rest => simp [validate_schematron_pt_udf]
  | cons row pt ih =>
    rw [List.cons_append]
    show (match parse row.document with
          | Except.error e => Except.error e
          | Except.ok record_xml =>
            match validate_schematron_pt_udf vs_id parse validator (pt ++ q) with
            | Except.error e => Except.error e
            | Except.ok tail =>
              if (validator record_xml).1 then Except.ok tail
              else Except.ok (⟨row.id, vs_id, 0,
                ⟨(validator record_xml).2.length, (validator record_xml).2.map PyVal.VStr⟩,
                (validator record_xml).2.length⟩ :: tail)) = _
    cases hp : parse row.document with
    | error e => simp [validate_schematron_pt_udf, hp]
    | ok record_xml =>
      rw [ih]
      simp only [validate_schematron_pt_udf, hp]
      cases validate_schematron_pt_udf vs_id parse validator pt with
      | error e => rfl
      | ok rows =>
        cases validate_schematron_pt_udf vs_id parse validator q with
        | error e =>
          by_cases hv : (validator record_xml).1 = true <;> simp [hv]
        | ok rest =>
          by_cases hv : (validator record_xml).1 = true <;> simp [hv]

theorem python_map_records_append (vs_id : Int) (funcs : List PyvsFunc)
    (p q : List Record) :
    python_map_records vs_id funcs (p ++ q) =
      match python_map_records vs_id funcs p with
      | Except.error e => Except.error e
      | Except.ok rows =>
        match python_map_records vs_id funcs q with
        | Except.error e => Except.error e
        | Except.ok rest => Except.ok (rows ++ rest) := by
  induction p with
  | nil =>
    show python_map_records vs_id funcs q = _
    cases python_map_records vs_id funcs q with
    | error e => rfl
    | ok rest => simp [python_map_records]
  | cons row pt ih =>
    rw [List.cons_append]
    show (match validate_python_udf vs_id funcs row with
          | Except.error e => Except.error e
          | Except.ok res =>
            match python_map_records vs_id funcs (pt ++ q) with
            | Except.error e => Except.error e
            | Except.ok rows => Except.ok (res.toList ++ rows)) = _
    cases hv : validate_python_udf vs_id funcs row with
    | error e => simp [python_map_records, hv]
    | ok res =>
      rw [ih]
      simp only [python_map_records, hv]
      cases python_map_records vs_id funcs pt with
      | error e => rfl
      | ok rows =>
        cases python_map_records vs_id funcs q with
        | error e => rfl
        | ok rest => simp

theorem validate_partitions_sch_flatten {Xml : Type} (vs_id : Int)
    (parse : String → Except String Xml) (validator : Xml → Bool × List String)
    (parts : List (List Record)) :
    validate_partitions_sch vs_id parse validator parts =
      validate_schematron_pt_udf vs_id parse validator parts.flatten := by
  induction parts with
  | nil => rfl
  | cons part parts ih =>
    rw [List.flatten_cons, validate_schematron_pt_udf_append]
    unfold validate_partitions_sch
    rw [ih]

theorem validate_partitions_python_flatten (vs_id : Int) (funcs : List PyvsFunc)
    (parts : List (List Record)) :
    validate_partitions_python vs_id funcs parts =
      python_map_records vs_id funcs parts.flatten := by
  induction parts with
  | nil => rfl
  | cons part parts ih =>
    rw [List.flatten_cons, python_map_records_append]
    unfold validate_partitions_python
    rw [ih]

/-! ### Orchestrator and partition error propagation -/

theorem run_ok_events_nonempty {Xml : Type} (lookup : Int → Option (VScenario Xml))
    (records : List Record) (ids : List Int) (events : List WriteEvent)
    (h : run_record_validation_scenarios lookup records ids = Except.ok events) :
    ∀ ev ∈ events, ev.rows.isEmpty = false := by
  induction ids generalizing events with
  | nil =>
    unfold run_record_validation_scenarios at h
    cases h
    intro ev hev
    exact absurd hev (by simp)
  | cons vs_id rest ih =>
    unfold run_record_validation_scenarios at h
    split at h
    · exact absurd h (by simp)
    · split at h
      · exact absurd h (by simp)
      · split at h
        · exact absurd h (by simp)
        · rename_i vs heq fails hsf evs hrun
          split at h
          · cases h
            exact ih _ hrun
          · rename_i hemp
            cases h
            intro ev hev
            rcases List.mem_cons.mp hev with hhd | htl
            · rw [hhd]
              simpa using hemp
            · exact ih _ hrun ev htl

/-- C6: contrary to the claim, a record whose document payload cannot be
parsed under a schematron scenario is NOT handled as a failure of that record
only: the parse error is uncaught inside the partition generator, so it aborts
the whole partition and none of the remaining records are validated
(amended behavior, proved here). -/
theorem unparsable_record_aborts_partition {Xml : Type} (vs_id : Int)
    (parse : String → Except String Xml) (validator : Xml → Bool × List String)
    (pre : List Record) (bad : Record) (rest : List Record) (e : String)
    (hpre : ∀ r ∈ pre, (parse r.document).isOk = true)
    (hbad : parse bad.document = Except.error e) :
    validate_schematron_pt_udf vs_id parse validator (pre ++ bad :: rest) =
      Except.error e := by
  induction pre with
  | nil =>
    show (match parse bad.document with
          | Except.error e => Except.error e
          | Except.ok record_xml =>
            match validate_schematron_pt_udf vs_id parse validator rest with
            | Except.error e => Except.error e
            | Except.ok tail =>
              if (validator record_xml).1 then Except.ok tail
              else Except.ok (⟨bad.id, vs_id, 0,
                ⟨(validator record_xml).2.length, (validator record_xml).2.map PyVal.VStr⟩,
                (validator record_xml).2.length⟩ :: tail)) = Except.error e
    rw [hbad]
  | cons row pt ih =>
    have hrow : (parse row.document).isOk = true := hpre row (by simp)
    obtain ⟨x, hx⟩ : ∃ x, parse row.document = Except.ok x := by
      cases hp : parse row.document with
      | error e2 => rw [hp] at hrow; exact absurd hrow (by simp [Except.isOk, Except.toBool])
      | ok x => exact ⟨x, rfl⟩
    have hpt : ∀ r ∈ pt, (parse r.document).isOk = true := by
      intro r hr; exact hpre r (by simp [hr])
    rw [List.cons_append]
    show (match parse row.document with
          | Except.error e => Except.error e
          | Except.ok record_xml =>
            match validate_schematron_pt_udf vs_id parse validator (pt ++ bad :: rest) with
            | Except.error e => Except.error e
            | Except.ok tail =>
              if (validator record_xml).1 then Except.ok tail
              else Except.ok (⟨row.id, vs_id, 0,
                ⟨(validator record_xml).2.length, (validator record_xml).2.map PyVal.VStr⟩,
                (validator record_xml).2.length⟩ :: tail)) = Except.error e
    rw [hx, ih hpt]

/-! ### Concrete fixtures for witnesses and counterexamples -/

def recW : Record := ⟨7, "<doc/>"⟩

def fPassW : PyvsFunc :=
  ⟨"test_a", some (PyVal.VStr ("default a")), fun _ => CheckOutcome.ret (PyVal.VBool true)⟩

def fExcW : PyvsFunc :=
  ⟨"test_b", some (PyVal.VStr ("default b")), fun _ => CheckOutcome.exc ("boom")⟩

def fStrW : PyvsFunc :=
  ⟨"test_c", some (PyVal.VStr ("default c")), fun _ => CheckOutcome.ret (PyVal.VStr ("missing title"))⟩

def fFalseW : PyvsFunc :=
  ⟨"test_d", some (PyVal.VStr ("default d")), fun _ => CheckOutcome.ret (PyVal.VBool false)⟩

def fNoMsgW : PyvsFunc :=
  ⟨"test_e", none, fun _ => CheckOutcome.ret (PyVal.VBool true)⟩

def fOneW : PyvsFunc :=
  ⟨"test_f", some (PyVal.VStr ("default f")), fun _ => CheckOutcome.ret (PyVal.VInt 1)⟩

def fZeroW : PyvsFunc :=
  ⟨"test_g", some (PyVal.VStr ("default g")), fun _ => CheckOutcome.ret (PyVal.VInt 0)⟩

def attrsC2 : List (String × PyAttr) :=
  [("test_title", PyAttr.func ⟨some (PyVal.VStr ("missing title")),
    fun _ => CheckOutcome.ret (PyVal.VBool false)⟩)]

def lookupC2 : Int → Option (VScenario Unit) := fun i =>
  if i = 2 then some ⟨2, VSPayload.python (Except.ok attrsC2)⟩ else none

def rowC2 : Row := ⟨7, 2, 0, ⟨1, [PyVal.VStr ("missing title")]⟩, 1⟩

def lookupBadPy : Int → Option (VScenario Unit) := fun i =>
  if i = 5 then some ⟨5, VSPayload.python (Except.error ("SyntaxError: invalid syntax"))⟩
  else lookupC2 i

def attrsC3 : List (String × PyAttr) :=
  [("helper", PyAttr.func ⟨some (PyVal.VStr ("helper message")),
    fun _ => CheckOutcome.ret (PyVal.VBool false)⟩)]

def lookupC3 : Int → Option (VScenario Unit) := fun i =>
  if i = 9 then some ⟨9, VSPayload.python (Except.ok attrsC3)⟩ else none

def attrsC8 : List (String × PyAttr) :=
  [("test_ok", PyAttr.func ⟨some (PyVal.VStr ("ok message")),
    fun _ => CheckOutcome.ret (PyVal.VBool true)⟩)]

def lookupC8 : Int → Option (VScenario Unit) := fun i =>
  if i = 9 then some ⟨9, VSPayload.python (Except.ok attrsC8)⟩ else lookupC2 i

def parseC6 : String → Except String String := fun s =>
  if s = "<bad/>" then Except.error ("XMLSyntaxError: malformed document") else Except.ok s

def validatorC6 : String → Bool × List String := fun x =>
  if x = "<fail/>" then (false, ["A"]) else (true, [])

def recBad : Record := ⟨1, "<bad/>"⟩

def recFail : Record := ⟨2, "<fail/>"⟩

def attrsC10 : List (String × PyAttr) :=
  [("test_b", PyAttr.func ⟨some (PyVal.VStr ("bb")), fun _ => CheckOutcome.ret (PyVal.VBool true)⟩),
   ("test_a", PyAttr.func ⟨some (PyVal.VStr ("aa")), fun _ => CheckOutcome.ret (PyVal.VBool true)⟩)]

/-- The failure entries one returned value contributes under the amended C4
contract: nothing when the value is Python-equal to True, the declared default
when it is Python-equal to False, the value itself verbatim otherwise. -/
def contribution (t v : PyVal) : List PyVal :=
  if pyEq v (PyVal.VBool true) then []
  else [if pyEq v (PyVal.VBool false) then t else v]

theorem python_check_loop_missing (prvb : Record) (rd : ResultsDict)
    (pre post : List PyvsFunc) (f : PyvsFunc)
    (hpre : ∀ g ∈ pre, (g.testMessage).isSome = true)
    (hf : f.testMessage = none) :
    python_check_loop prvb rd (pre ++ f :: post) = Except.error keyErrStr := by
  induction pre generalizing rd with
  | nil =>
    show (match runCheck prvb rd f with
          | Except.error e => Except.error e
          | Except.ok rd2 => python_check_loop prvb rd2 post) = _
    unfold runCheck
    rw [hf]
  | cons g gs ih =>
    have hg := hpre g (by simp)
    obtain ⟨t, ht⟩ := Option.isSome_iff_exists.mp hg
    rw [List.cons_append]
    show (match runCheck prvb rd g with
          | Except.error e => Except.error e
          | Except.ok rd2 => python_check_loop prvb rd2 (gs ++ f :: post)) = _
    rw [runCheck_spec prvb rd g t ht]
    exact ih _ (fun x hx => hpre x (by simp [hx]))

/-! ### Claim theorems -/

/-- C1: for every procedural scenario and record, a check function that raises
during evaluation is not propagated to the caller: it contributes exactly one
failure entry embedding its name and the error text, fail_count counts it
exactly once, and every remaining check function is still evaluated and its
result recorded in order. -/
theorem check_exception_isolated (vs_id : Int) (row : Record)
    (pre post : List PyvsFunc) (f : PyvsFunc) (e : String)
    (hall : ∀ g ∈ pre ++ f :: post, (g.testMessage).isSome = true)
    (hexc : f.run row = CheckOutcome.exc e) :
    validate_python_udf vs_id (pre ++ f :: post) row =
      Except.ok (some ⟨row.id, vs_id, 0,
        ⟨(failMsgs pre row ++ PyVal.VStr (excMsg f.name e) :: failMsgs post row).length,
         failMsgs pre row ++ PyVal.VStr (excMsg f.name e) :: failMsgs post row⟩,
        (failMsgs pre row ++ PyVal.VStr (excMsg f.name e) :: failMsgs post row).length⟩) := by
  have hcf : checkFails row f = true := by unfold checkFails; rw [hexc]
  have hcm : checkFailMsg row f = PyVal.VStr (excMsg f.name e) := by
    unfold checkFailMsg; rw [hexc]
  have hdecomp : failMsgs (pre ++ f :: post) row =
      failMsgs pre row ++ PyVal.VStr (excMsg f.name e) :: failMsgs post row := by
    rw [failMsgs_append, failMsgs_cons_fail _ _ _ hcf, hcm]
  rw [validate_python_udf_spec vs_id _ row hall, hdecomp]
  rw [if_pos (by simp)]

/-- C1 witness: a passing check, then a raising check, then a failing check;
the exception becomes the middle failure entry and the third check is still
recorded. -/
theorem check_exception_isolated_witness :
    validate_python_udf 11 [fPassW, fExcW, fStrW] recW =
      Except.ok (some ⟨7, 11, 0,
        ⟨2, [PyVal.VStr (excMsg ("test_b") ("boom")), PyVal.VStr ("missing title")]⟩, 2⟩) :=
  check_exception_isolated 11 recW [fPassW] [fStrW] fExcW ("boom") (by decide) rfl

/-- C5: when exactly k of the checks fail for a record (k at least 1), exactly
one Row is produced, with fail_count equal to k and a failed list of length k
whose entries appear in check evaluation order. -/
theorem fail_aggregation_count (vs_id : Int) (funcs : List PyvsFunc) (row : Record)
    (k : Nat) (hall : ∀ f ∈ funcs, (f.testMessage).isSome = true)
    (hk : (funcs.filter (checkFails row)).length = k) (h1 : 1 ≤ k) :
    validate_python_udf vs_id funcs row =
      Except.ok (some ⟨row.id, vs_id, 0, ⟨k, failMsgs funcs row⟩, k⟩) ∧
    (failMsgs funcs row).length = k := by
  have hlen : (failMsgs funcs row).length = k := by
    unfold failMsgs; rw [List.length_map]; exact hk
  refine ⟨?_, hlen⟩
  rw [validate_python_udf_spec vs_id funcs row hall, hlen]
  rw [if_pos (by omega)]

/-- C5 witness: two failing checks give one Row with fail_count 2 and the two
messages in evaluation order. -/
theorem fail_aggregation_count_witness :
    validate_python_udf 3 [fFalseW, fStrW] recW =
      Except.ok (some ⟨7, 3, 0,
        ⟨2, [PyVal.VStr ("default d"), PyVal.VStr ("missing title")]⟩, 2⟩) :=
  (fail_aggregation_count 3 [fFalseW, fStrW] recW 2 (by decide) (by decide) (by decide)).1

/-- C9: a check function that does not declare a test_message parameter makes
the compiled validator raise an unhandled KeyError on every record (the
signature inspection of source line 199 runs before and outside the per-check
try), aborting that record instead of producing a synthetic failure. -/
theorem missing_test_message_aborts (vs_id : Int) (row : Record)
    (pre post : List PyvsFunc) (f : PyvsFunc)
    (hpre : ∀ g ∈ pre, (g.testMessage).isSome = true)
    (hf : f.testMessage = none) :
    validate_python_udf vs_id (pre ++ f :: post) row = Except.error keyErrStr := by
  unfold validate_python_udf
  rw [python_check_loop_missing (PythonUDFRecord row) ⟨0, []⟩ pre post f hpre hf]

/-- C9 witness: a well-formed check followed by one lacking test_message; the
whole record validation errors with the KeyError. -/
theorem missing_test_message_aborts_witness :
    validate_python_udf 3 [fPassW, fNoMsgW] recW = Except.error keyErrStr :=
  missing_test_message_aborts 3 recW [fPassW] [] fNoMsgW (by decide) rfl

/-- C2 (amended): a failed scenario lookup or a failed load of a procedural
payload while processing one scenario id is unhandled in the orchestrator loop
and aborts the entire run: none of the remaining requested scenario ids is
processed. -/
theorem scenario_failure_aborts_run {Xml : Type} (lookup : Int → Option (VScenario Xml))
    (records : List Record) (vs_id : Int) (rest : List Int) :
    (lookup vs_id = none →
      run_record_validation_scenarios lookup records (vs_id :: rest) =
        Except.error (doesNotExistMsg vs_id)) ∧
    (∀ (i : Int) (e : String),
      lookup vs_id = some ⟨i, VSPayload.python (Except.error e)⟩ →
      run_record_validation_scenarios lookup records (vs_id :: rest) =
        Except.error e) := by
  constructor
  · intro h
    unfold run_record_validation_scenarios
    rw [h]
  · intro i e h
    unfold run_record_validation_scenarios
    rw [h]
    exact rfl

/-- C2 witness: with concrete scenario tables, a missing scenario id and an
unloadable procedural payload each abort the run regardless of the remaining
requested ids. -/
theorem scenario_failure_aborts_run_witness :
    run_record_validation_scenarios lookupC2 [recW] (1 :: [2]) =
      Except.error (doesNotExistMsg 1) ∧
    run_record_validation_scenarios lookupBadPy [recW] (5 :: [2]) =
      Except.error ("SyntaxError: invalid syntax") :=
  ⟨(scenario_failure_aborts_run lookupC2 [recW] 1 [2]).1 rfl,
   (scenario_failure_aborts_run lookupBadPy [recW] 5 [2]).2 5
     ("SyntaxError: invalid syntax") rfl⟩

/-- C2 counterexample: scenario id 1 does not resolve while scenario 2 would
produce a write; requesting [1, 2] errors out with no scenario processed,
although requesting [2] alone succeeds and writes — so a failure for one
scenario does NOT let the orchestrator continue with the remaining ids. -/
theorem scenario_failure_not_isolated_cex :
    run_record_validation_scenarios lookupC2 [recW] [1, 2] =
      Except.error (doesNotExistMsg 1) ∧
    run_record_validation_scenarios lookupC2 [recW] [2] =
      Except.ok [⟨2, [rowC2]⟩] := ⟨rfl, rfl⟩

/-- C3 (amended): a procedural payload with zero eligible check functions does
not fail compilation: discovery yields an empty function list and validation
proceeds, producing a silent zero-result batch (ok with no rows) for every
record set. -/
theorem zero_checks_silent_empty_batch (vs_id : Int) (attrs : List (String × PyAttr))
    (h : ∀ p ∈ attrs, pyStartswith (pyLower p.1) ("test") = false) :
    pyvs_funcs attrs = [] ∧
    ∀ records, _python_validation vs_id attrs records = Except.ok [] := by
  have hempty := pyvs_funcs_empty_of_no_eligible attrs h
  refine ⟨hempty, fun records => ?_⟩
  unfold _python_validation
  rw [hempty]
  exact python_map_records_no_funcs vs_id records

/-- C3 witness: a payload defining only a function named helper compiles to
zero checks and validates a record set to an empty result. -/
theorem zero_checks_silent_empty_batch_witness :
    pyvs_funcs attrsC3 = [] ∧ _python_validation 9 attrsC3 [recW] = Except.ok [] := by
  have h := zero_checks_silent_empty_batch 9 attrsC3 (by decide)
  exact ⟨h.1, h.2 [recW]⟩

/-- C3 counterexample: the full orchestrator run over a scenario whose payload
has zero eligible check functions completes without any error and performs no
write — a silent zero-result batch, not a ScenarioCompileError. -/
theorem zero_checks_silent_empty_batch_cex :
    pyvs_funcs attrsC3 = [] ∧
    run_record_validation_scenarios lookupC3 [recW] [9] = Except.ok [] := ⟨rfl, rfl⟩

/-- C4 (amended): for a check invocation returning value v, the invocation
counts as a pass exactly when v is Python-equal to True (so the integer 1
passes); a failing v contributes its value verbatim unless v is Python-equal
to False (so the integer 0, though non-boolean, contributes the declared
default message). -/
theorem return_value_contract_pyeq (vs_id : Int) (row : Record)
    (pre post : List PyvsFunc) (f : PyvsFunc) (t v : PyVal)
    (hall : ∀ g ∈ pre ++ f :: post, (g.testMessage).isSome = true)
    (ht : f.testMessage = some t) (hv : f.run row = CheckOutcome.ret v) :
    validate_python_udf vs_id (pre ++ f :: post) row =
      Except.ok (
        if (failMsgs pre row ++ contribution t v ++ failMsgs post row).length > 0 then
          some ⟨row.id, vs_id, 0,
            ⟨(failMsgs pre row ++ contribution t v ++ failMsgs post row).length,
             failMsgs pre row ++ contribution t v ++ failMsgs post row⟩,
            (failMsgs pre row ++ contribution t v ++ failMsgs post row).length⟩
        else none) := by
  have hdecomp : failMsgs (pre ++ f :: post) row =
      failMsgs pre row ++ contribution t v ++ failMsgs post row := by
    rw [failMsgs_append]
    unfold contribution
    by_cases h1 : pyEq v (PyVal.VBool true) = true
    · rw [failMsgs_cons_pass _ _ _ (by unfold checkFails; rw [hv]; simp [h1]), if_pos h1]
      simp
    · rw [failMsgs_cons_fail _ _ _ (by unfold checkFails; rw [hv]; simp [h1]), if_neg h1]
      have hcm : checkFailMsg row f = if pyEq v (PyVal.VBool false) then t else v := by
        unfold checkFailMsg
        rw [hv]
        by_cases h2 : pyEq v (PyVal.VBool false) = true
        · simp [h2, ht]
        · simp [h2]
      rw [hcm]
      simp
  rw [validate_python_udf_spec vs_id _ row hall, hdecomp]

/-- C4 witness: a check returning the string "missing title" fails and the
string is used verbatim as the failure message. -/
theorem return_value_contract_pyeq_witness :
    validate_python_udf 3 [fStrW] recW =
      Except.ok (some ⟨7, 3, 0, ⟨1, [PyVal.VStr ("missing title")]⟩, 1⟩) :=
  return_value_contract_pyeq 3 recW [] [] fStrW (PyVal.VStr ("default c"))
    (PyVal.VStr ("missing title")) (by decide) rfl rfl

/-- C4 counterexample: the integer 1 is a return value other than True, yet it
counts as a pass (no report); and the integer 0 is a failing non-boolean value,
yet it is not used verbatim — the default message is used instead. -/
theorem return_value_contract_cex :
    (PyVal.VInt 1 ≠ PyVal.VBool true) ∧
    validate_python_udf 3 [fOneW] recW = Except.ok none ∧
    validate_python_udf 3 [fZeroW] recW =
      Except.ok (some ⟨7, 3, 0, ⟨1, [PyVal.VStr ("default g")]⟩, 1⟩) :=
  ⟨by decide, rfl, rfl⟩

/-- C6 witness: a partition whose second record does not parse errors out even
though its first record parses and would be reported. -/
theorem unparsable_record_aborts_partition_witness :
    validate_schematron_pt_udf 4 parseC6 validatorC6 [recFail, recBad] =
      Except.error ("XMLSyntaxError: malformed document") :=
  unparsable_record_aborts_partition 4 parseC6 validatorC6 [recFail] recBad []
    ("XMLSyntaxError: malformed document") (by decide) rfl

/-- C6 counterexample: with an unparsable first record, the partition result
is an error and the second record — which validates to a failure report when
the partition holds it alone — is never validated; the rest of the partition
is NOT still validated. -/
theorem unparsable_record_not_isolated_cex :
    validate_schematron_pt_udf 4 parseC6 validatorC6 [recBad, recFail] =
      Except.error ("XMLSyntaxError: malformed document") ∧
    validate_schematron_pt_udf 4 parseC6 validatorC6 [recFail] =
      Except.ok [⟨2, 4, 0, ⟨1, [PyVal.VStr ("A")]⟩, 1⟩] := ⟨rfl, rfl⟩

/-- C7: for every record set, every partitioning of it and every compiled
validator of either kind, the union of the per-partition failure reports
equals the result of running the whole unpartitioned record set through the
same validator. -/
theorem split_invariance {Xml : Type} (vs_id : Int)
    (parse : String → Except String Xml) (validator : Xml → Bool × List String)
    (funcs : List PyvsFunc) (parts : List (List Record)) :
    validate_partitions_sch vs_id parse validator parts =
      _sch_validation vs_id parse validator parts.flatten ∧
    validate_partitions_python vs_id funcs parts =
      python_map_records vs_id funcs parts.flatten :=
  ⟨validate_partitions_sch_flatten vs_id parse validator parts,
   validate_partitions_python_flatten vs_id funcs parts⟩

/-- C8: a record with zero failing checks yields no Row at all; and every
batch write the orchestrator performs carries a non-empty row list, so an
empty failure union never produces a write for that scenario. -/
theorem no_failures_no_report_no_write :
    (∀ (vs_id : Int) (funcs : List PyvsFunc) (row : Record),
      (∀ f ∈ funcs, (f.testMessage).isSome = true) →
      (∀ f ∈ funcs, checkFails row f = false) →
      validate_python_udf vs_id funcs row = Except.ok none) ∧
    (∀ (Xml : Type) (lookup : Int → Option (VScenario Xml)) (records : List Record)
      (ids : List Int) (events : List WriteEvent),
      run_record_validation_scenarios lookup records ids = Except.ok events →
      ∀ ev ∈ events, ev.rows.isEmpty = false) := by
  constructor
  · intro vs_id funcs row hall hpass
    rw [validate_python_udf_spec vs_id funcs row hall]
    have hnil : funcs.filter (checkFails row) = [] :=
      List.filter_eq_nil_iff.mpr (by intro a ha; simp [hpass a ha])
    rw [if_neg (by simp [failMsgs, hnil])]
  · exact fun Xml lookup records ids events h =>
      run_ok_events_nonempty lookup records ids events h

/-- C8 witness: an all-passing check list produces no report for the record,
and a concrete two-scenario run (one empty union, one failing scenario)
performs only the non-empty write. -/
theorem no_failures_no_report_no_write_witness :
    validate_python_udf 9 [fPassW] recW = Except.ok none ∧
    (∀ ev ∈ [WriteEvent.mk 2 [rowC2]], ev.rows.isEmpty = false) := by
  constructor
  · exact no_failures_no_report_no_write.1 9 [fPassW] recW (by decide) (by decide)
  · exact no_failures_no_report_no_write.2 Unit lookupC8 [recW] [9, 2] [⟨2, [rowC2]⟩] rfl

/-- C10: eligible check functions are discovered from the sorted dir listing
of the loaded module, so for every payload the checks are evaluated in
lexicographic order of function name; a payload defining test_b before test_a
is nevertheless evaluated as [test_a, test_b], not in definition order. -/
theorem checks_in_sorted_name_order :
    (∀ attrs : List (String × PyAttr),
      List.Sorted (fun a b => pyStrLe a b = true) ((pyvs_funcs attrs).map PyvsFunc.name)) ∧
    (pyvs_funcs attrsC10).map PyvsFunc.name = ["test_a", "test_b"] :=
  ⟨pyvs_funcs_names_sorted, rfl⟩
